import Mathlib

/-!
Verification of the movie-recommendation engine (`model.py` and `app.py`).

The Python sources are shallowly embedded: pandas dataframes become lists of
records, strings become `List Char`, numpy arrays become `List ℚ`, on-disk
state becomes explicit state passing, and raised exceptions become `Except`
values.  All definitions are executable.

Modelling conventions, stated once:

* Python `str.lower` / `str.strip` are modelled over ASCII (`lowerChar`,
  `wsChar`): lower-casing maps only the letters A–Z, and stripping removes
  ASCII whitespace from both ends.
* numpy's `argsort` has no documented tie order; we model it as the stable
  sort (equal keys keep their original index order), which is what the
  spec's own "stable sort" language presumes and what numpy's insertion
  sort does on small arrays.
* sklearn's smoothed idf weight is `ln((1+n)/(1+df)) + 1`, a transcendental
  number; `idfWeight` is a rational surrogate `(1+n)/(1+df) + 1` with the
  same structure (strictly positive, depends only on `n` and `df`,
  decreasing in `df`).  No claim below depends on the numeric values of the
  idf weights, only on their being a function of the document frequency.
* sklearn's `TfidfVectorizer` L2-normalises every row and
  `cosine_similarity` re-normalises, so the produced score is the cosine of
  the unnormalised tf·idf vectors.  The cosine itself involves a square
  root, which is irrational; `cosSq` returns the *square* of the cosine
  (with the same `0` guard sklearn applies to zero vectors).  On the
  nonnegative tf·idf vectors the map `x ↦ x²` is strictly monotone, so
  equality, order comparisons and zero tests of `cosSq` coincide with those
  of the true cosine; every property proved below is invariant under this
  reparametrisation of the score scale.
* sklearn's built-in English stop-word list lives inside sklearn, not in
  this repository; the stop-word list is therefore a parameter (`sw`)
  everywhere, and concrete evaluations instantiate it explicitly.
-/

/-! ### Python strings -/

/-- Python strings are modelled as lists of characters. -/
abbrev PyString := List Char

/-- Coercion from Lean string literals. -/
def pyStr (s : String) : PyString := s.data

/-- ASCII model of Python `str.lower` on a single character. -/
def lowerChar : Char → Char
  | 'A' => 'a' | 'B' => 'b' | 'C' => 'c' | 'D' => 'd' | 'E' => 'e' | 'F' => 'f'
  | 'G' => 'g' | 'H' => 'h' | 'I' => 'i' | 'J' => 'j' | 'K' => 'k' | 'L' => 'l'
  | 'M' => 'm' | 'N' => 'n' | 'O' => 'o' | 'P' => 'p' | 'Q' => 'q' | 'R' => 'r'
  | 'S' => 's' | 'T' => 't' | 'U' => 'u' | 'V' => 'v' | 'W' => 'w' | 'X' => 'x'
  | 'Y' => 'y' | 'Z' => 'z'
  | c => c

/-- ASCII whitespace, the characters Python `str.strip` removes. -/
def wsChar (c : Char) : Bool :=
  c = ' ' || c = '\t' || c = '\n' || c = '\r' || c = '\x0b' || c = '\x0c'

/-- Python `str.lower`. -/
def pyLower (s : PyString) : PyString := s.map lowerChar

/-- Python `str.strip`: drop whitespace from both ends. -/
def pyStrip (s : PyString) : PyString := (s.dropWhile wsChar).rdropWhile wsChar
/-- The normalised lookup key the Python code computes from a query:
`title.lower().strip()`. -/
def queryKey (title : PyString) : PyString := pyStrip (pyLower title)

/-! ### Tokenizer (sklearn `TfidfVectorizer`, default settings) -/

/-- A vocabulary term. -/
abbrev Token := PyString

/-- Word characters of sklearn's default token pattern (ASCII model of
the regex class of letters, digits and underscore). -/
def wordChar (c : Char) : Bool := c.isAlphanum || c = '_'

/-- Split a string into maximal runs of word characters; `acc` is the
current run, reversed. -/
def splitRuns : PyString → Token → List Token
  | [], acc => if acc.isEmpty then [] else [acc.reverse]
  | c :: cs, acc =>
      if wordChar c then splitRuns cs (c :: acc)
      else if acc.isEmpty then splitRuns cs []
      else acc.reverse :: splitRuns cs []

/-- `TfidfVectorizer` configuration: the stop-word list (sklearn's
built-in English list lives in sklearn, so it is a parameter here) and
`max_features`. -/
structure VectConfig where
  stopWords : List Token
  maxFeatures : Nat
deriving DecidableEq

/-- sklearn tokenisation: lower-case, extract word runs of length at
least 2, then remove stop words. -/
def tokenize (cfg : VectConfig) (s : PyString) : List Token :=
  ((splitRuns (pyLower s) []).filter (fun w => 2 ≤ w.length)).filter
    (fun w => decide (w ∉ cfg.stopWords))

/-! ### Term weighting -/

/-- Rational surrogate for sklearn's smoothed idf (see the header note:
no claim depends on its numeric values, only on its being a positive
function of the corpus size and the document frequency). -/
def idfWeight (n df : Nat) : ℚ := (1 + n : ℚ) / (1 + df) + 1

/-- Number of documents whose token list contains `t`. -/
def docFreq (docs : List (List Token)) (t : Token) : Nat :=
  (docs.filter (fun d => decide (t ∈ d))).length

/-- Total number of occurrences of `t` across the corpus. -/
def totalCount (docs : List (List Token)) (t : Token) : Nat :=
  (docs.map (fun d => d.count t)).sum

/-- The fitted vectorizer: configuration, vocabulary and idf weights
(sklearn's `vocabulary_` and `idf_`), aligned by position. -/
structure TfidfModel where
  cfg : VectConfig
  vocab : List Token
  idf : List ℚ
deriving DecidableEq

/-- Keep the `k` most frequent terms (`max_features`); ties keep the
earlier term, a deterministic rendering of numpy's unspecified tie
order, observable only through which terms are retained. -/
def limitFeatures (docs : List (List Token)) (k : Nat) (vocab : List Token) :
    List Token :=
  if vocab.length ≤ k then vocab
  else (List.insertionSort
    (fun a b => totalCount docs b ≤ totalCount docs a) vocab).take k

/-- `TfidfVectorizer.fit` over a list of texts. -/
def fitVectorizer (cfg : VectConfig) (texts : List PyString) : TfidfModel :=
  let docs := texts.map (tokenize cfg)
  let vocab := limitFeatures docs cfg.maxFeatures docs.flatten.dedup
  { cfg := cfg, vocab := vocab,
    idf := vocab.map (fun t => idfWeight texts.length (docFreq docs t)) }

/-- `TfidfVectorizer.transform` on one text: its tf·idf weight vector
over the fitted vocabulary (kept unnormalised, see the header note). -/
def transform (m : TfidfModel) (text : PyString) : List ℚ :=
  let toks := tokenize m.cfg text
  (m.vocab.zip m.idf).map (fun p => (toks.count p.1 : ℚ) * p.2)

/-- `fit_transform`: fit, then one matrix row per input text. -/
def fitTransform (cfg : VectConfig) (texts : List PyString) :
    TfidfModel × List (List ℚ) :=
  let m := fitVectorizer cfg texts
  (m, texts.map (transform m))

/-! ### Cosine similarity and `argsort` -/

/-- Dot product of two weight vectors. -/
def dotp (u v : List ℚ) : ℚ := (List.zipWith (fun a b => a * b) u v).sum

/-- The similarity score on the embedding's scale: squared cosine, with
sklearn's guard that a zero vector has similarity `0` to everything
(never a division by zero, never NaN).  See the header note. -/
def cosSq (u v : List ℚ) : ℚ :=
  if dotp u u = 0 ∨ dotp v v = 0 then 0
  else dotp u v * dotp u v / (dotp u u * dotp v v)

/-- Key order of `np.argsort(-cosines)`: score strictly descending, ties
by ascending index (stable argsort, see the header note). -/
def lexDesc (s : List ℚ) (i j : Nat) : Prop :=
  s.getD j 0 < s.getD i 0 ∨ (s.getD i 0 = s.getD j 0 ∧ i ≤ j)

instance (s : List ℚ) : DecidableRel (lexDesc s) := fun i j => by
  unfold lexDesc; infer_instance

/-- Key order of `cosines.argsort()`: score ascending, ties by ascending
index. -/
def lexAsc (s : List ℚ) (i j : Nat) : Prop :=
  s.getD i 0 < s.getD j 0 ∨ (s.getD i 0 = s.getD j 0 ∧ i ≤ j)

instance (s : List ℚ) : DecidableRel (lexAsc s) := fun i j => by
  unfold lexAsc; infer_instance

/-- `np.argsort(-s)`: the indices of `s`, sorted by score descending. -/
def argsortDesc (s : List ℚ) : List Nat :=
  List.insertionSort (lexDesc s) (List.range s.length)

/-- `s.argsort()`: the indices of `s`, sorted by score ascending. -/
def argsortAsc (s : List ℚ) : List Nat :=
  List.insertionSort (lexAsc s) (List.range s.length)

/-! ### The corpus (`load_data` in `model.py`, `load_local_csv` in `app.py`) -/

/-- A raw CSV row; `none` models a missing (NaN) field. -/
structure RawRow where
  title : Option PyString
  overview : Option PyString
deriving DecidableEq

/-- A normalised dataframe row; the row's position in the list is its
document id. -/
structure MovieRow where
  title : PyString
  overview : PyString
  title_lower : PyString
deriving DecidableEq, Inhabited

/-- `load_data` (`model.py`) and `load_local_csv` (`app.py`), which
normalise identically: missing fields become the empty string and
`title_lower` stores the lower-cased title. -/
def load_data (raw : List RawRow) : List MovieRow :=
  raw.map fun r =>
    let t := r.title.getD []
    { title := t, overview := r.overview.getD [], title_lower := pyLower t }

/-- One entry of a returned recommendation list. -/
structure RecEntry where
  title : PyString
  overview : PyString
  score : ℚ
deriving DecidableEq

instance {ε α : Type v} [DecidableEq ε] [DecidableEq α] :
    DecidableEq (Except ε α) := fun a b =>
  match a, b with
  | .error e, .error f => decidable_of_iff (e = f) (by simp)
  | .error _, .ok _ => isFalse (by simp)
  | .ok _, .error _ => isFalse (by simp)
  | .ok a, .ok b => decidable_of_iff (a = b) (by simp)

/-! ### The local-corpus recommender -/

/-- `df[df["title_lower"] == title.lower().strip()]` followed by
`row.index[0]`: the index of the first row whose stored key equals the
normalised query, if any. -/
def resolveIdx (df : List MovieRow) (title : PyString) : Option Nat :=
  df.findIdx? (fun r => decide (r.title_lower = queryKey title))

/-- Ranked index selection of `model.py`'s `recommend`:
`np.argsort(-cosines)[1 : top_n+1]`. -/
def rankedIdxLocal (cosines : List ℚ) (top_n : Nat) : List Nat :=
  ((argsortDesc cosines).drop 1).take top_n

/-- The message of `model.py`'s raised `ValueError`, built from the
already lower-cased and stripped title. -/
def notFoundMsg (key : PyString) : PyString :=
  pyStr "Movie '" ++ key ++ pyStr "' not found!"

/-- `recommend` from `model.py`; a raised `ValueError` becomes
`Except.error`. -/
def recommend (title : PyString) (df : List MovieRow) (tfidf : TfidfModel)
    (matrix : List (List ℚ)) (top_n : Nat) : Except PyString (List RecEntry) :=
  match resolveIdx df title with
  | none => .error (notFoundMsg (queryKey title))
  | some idx =>
      let movie_vec := transform tfidf (df.getD idx default).overview
      let cosines := matrix.map (fun row => cosSq movie_vec row)
      .ok ((rankedIdxLocal cosines top_n).map (fun i =>
        { title := (df.getD i default).title
          overview := (df.getD i default).overview
          score := cosines.getD i 0 }))

/-- Ranked index selection of `app.py`'s `recommend_from_local_csv`:
`cosines.argsort()[::-1][1 : top_n+1]`. -/
def rankedIdxLocalApp (cosines : List ℚ) (top_n : Nat) : List Nat :=
  (((argsortAsc cosines).reverse).drop 1).take top_n

/-- The message of `app.py`'s local-mode `ValueError`, which keeps the
original (unnormalised) title. -/
def notFoundMsgApp (title : PyString) : PyString :=
  pyStr "Movie '" ++ title ++ pyStr "' not found in local dataset."

/-- `recommend_from_local_csv` from `app.py`. -/
def recommend_from_local_csv (title : PyString) (df : List MovieRow)
    (tfidf : TfidfModel) (matrix : List (List ℚ)) (top_n : Nat) :
    Except PyString (List RecEntry) :=
  match resolveIdx df title with
  | none => .error (notFoundMsgApp title)
  | some idx =>
      let movie_vec := transform tfidf (df.getD idx default).overview
      let cosines := matrix.map (fun row => cosSq movie_vec row)
      .ok ((rankedIdxLocalApp cosines top_n).map (fun i =>
        { title := (df.getD i default).title
          overview := (df.getD i default).overview
          score := cosines.getD i 0 }))

/-- Modelled from the spec (§4.5 step 1, local-corpus mode): obtain the
query's weighted vector "by row lookup in the existing matrix" instead
of re-transforming its stored description; the reference formulation of
the refinement claim, otherwise identical to `recommend`. -/
def recommendByRowLookup (title : PyString) (df : List MovieRow)
    (tfidf : TfidfModel) (matrix : List (List ℚ)) (top_n : Nat) :
    Except PyString (List RecEntry) :=
  match resolveIdx df title with
  | none => .error (notFoundMsg (queryKey title))
  | some idx =>
      let movie_vec := matrix.getD idx []
      let cosines := matrix.map (fun row => cosSq movie_vec row)
      .ok ((rankedIdxLocal cosines top_n).map (fun i =>
        { title := (df.getD i default).title
          overview := (df.getD i default).overview
          score := cosines.getD i 0 }))

/-! ### The model cache (`load_model`, `build_and_save_model`,
`ensure_model` in `model.py`) -/

/-- The persistence medium: the contents of `vectorizer.pkl` and
`tfidf_matrix.pkl`, each possibly absent. -/
structure DiskState where
  vectFile : Option TfidfModel
  matrixFile : Option (List (List ℚ))
deriving DecidableEq

/-- `load_model`: the cached pair when both files exist, else nothing. -/
def load_model (d : DiskState) : Option (TfidfModel × List (List ℚ)) :=
  match d.vectFile, d.matrixFile with
  | some t, some m => some (t, m)
  | _, _ => none

/-- `build_and_save_model`: fit `TfidfVectorizer(stop_words=sw,
max_features=20000)` over the `overview` column and dump both
artifacts; returns the model and the disk state after the dumps. -/
def build_and_save_model (sw : List Token) (df : List MovieRow) :
    (TfidfModel × List (List ℚ)) × DiskState :=
  let tm := fitTransform ⟨sw, 20000⟩ (df.map (fun r => r.overview))
  (tm, ⟨some tm.1, some tm.2⟩)

/-- `ensure_model`, with the disk state passed explicitly.  The `Bool`
result is the build counter of the spec's scenario: `true` when `fit`
ran. -/
def ensure_model (sw : List Token) (df : List MovieRow) (d : DiskState) :
    (TfidfModel × List (List ℚ)) × DiskState × Bool :=
  match load_model d with
  | some tm => (tm, d, false)
  | none => ((build_and_save_model sw df).1, (build_and_save_model sw df).2, true)

/-! ### The live (encyclopedia) recommender (`app.py`) -/

/-- The external text-search provider (the `wikipedia` module).
`summary` takes a title and a sentence count, `search` a query and a
result cap; `none` models a raised exception. -/
structure WikiProvider where
  summary : PyString → Nat → Option PyString
  search : PyString → Nat → Option (List PyString)

/-- `fetch_wiki_summary`: the summary, or `None` when the provider
raises. -/
def fetch_wiki_summary (w : WikiProvider) (title : PyString)
    (sentences : Nat) : Option PyString :=
  w.summary title sentences

/-- The candidate `(title, summary)` pairs surviving `app.py`'s
filtering: a search failure yields no candidates, titles
case-insensitively equal to the query are removed before fetching, and
a candidate is kept only when its fetched summary is truthy (`if s:`,
so present and nonempty). -/
def candidateTuples (w : WikiProvider) (query : PyString)
    (max_candidates : Nat) : List (PyString × PyString) :=
  let candidate_titles := (w.search query max_candidates).getD []
  let kept := candidate_titles.filter (fun t => decide (pyLower t ≠ pyLower query))
  kept.filterMap (fun t =>
    match fetch_wiki_summary w t 2 with
    | some s => if s = [] then none else some (t, s)
    | none => none)

/-- Ranked index selection of `fast_recommend_from_wikipedia`:
`cosines.argsort()[::-1][:top_n]`. -/
def rankedIdxLive (cosines : List ℚ) (top_n : Nat) : List Nat :=
  ((argsortAsc cosines).reverse).take top_n

/-- `fast_recommend_from_wikipedia` from `app.py` (the caching
decorators are performance plumbing).  Failures are reported through
the second component exactly as in the code; the first message drops
the Python exception text it interpolates. -/
def fast_recommend_from_wikipedia (w : WikiProvider) (sw : List Token)
    (query_title : PyString) (top_n : Nat) (max_candidates : Nat) :
    List RecEntry × Option PyString :=
  match w.summary query_title 4 with
  | none =>
      ([], some (pyStr "Wikipedia lookup failed for '" ++ query_title ++ pyStr "'"))
  | some source_summary =>
      let tuples := candidateTuples w query_title max_candidates
      if tuples = [] then
        ([], some (pyStr "No candidate summaries found on Wikipedia."))
      else
        let texts := source_summary :: tuples.map (fun p => p.2)
        let X := (fitTransform ⟨sw, 8000⟩ texts).2
        let source_vec := X.headD []
        let cand_vecs := X.tail
        let cosines := cand_vecs.map (fun v => cosSq source_vec v)
        ((rankedIdxLive cosines top_n).map (fun i =>
          { title := (tuples.getD i ([], [])).1
            overview := (tuples.getD i ([], [])).2
            score := cosines.getD i 0 }), none)

/-! ### Concrete data used by counterexamples and witnesses -/

/-- Two-row corpus whose documents share one description; with tied top
scores the slice-based self-exclusion of `recommend` misfires. -/
def dupDf : List MovieRow :=
  [{ title := pyStr "Alpha", overview := pyStr "space adventure film",
     title_lower := pyStr "alpha" },
   { title := pyStr "Beta", overview := pyStr "space adventure film",
     title_lower := pyStr "beta" }]

/-- The vectorizer fitted over `dupDf` (empty stop-word list). -/
def dupModel : TfidfModel := (build_and_save_model [] dupDf).1.1

/-- The document-term matrix fitted over `dupDf`. -/
def dupMatrix : List (List ℚ) := (build_and_save_model [] dupDf).1.2

/-- Two-row corpus whose second document has an empty description. -/
def emptyRowDf : List MovieRow :=
  [{ title := pyStr "Alpha", overview := pyStr "space movie",
     title_lower := pyStr "alpha" },
   { title := pyStr "Empty", overview := [], title_lower := pyStr "empty" }]

/-- A provider returning one query summary and two candidates with
identical summaries (hence tied similarity scores). -/
def tieProvider : WikiProvider where
  summary := fun t n =>
    if t = pyStr "Qm" ∧ n = 4 then some (pyStr "alpha beta")
    else if t = pyStr "Cand One" then some (pyStr "gamma delta")
    else if t = pyStr "Cand Two" then some (pyStr "gamma delta")
    else none
  search := fun _ _ => some [pyStr "Cand One", pyStr "Cand Two"]

theorem lowerChar_cases (c : Char) :
    lowerChar c = c ∨ lowerChar c ∈
      ['a','b','c','d','e','f','g','h','i','j','k','l','m',
       'n','o','p','q','r','s','t','u','v','w','x','y','z'] := by
  unfold lowerChar
  split <;> first | (left; rfl) | (right; decide)

theorem lowerChar_idem (c : Char) : lowerChar (lowerChar c) = lowerChar c := by
  rcases lowerChar_cases c with h | h
  · rw [h]; exact h
  · simp only [List.mem_cons, List.not_mem_nil, or_false] at h
    rcases h with h|h|h|h|h|h|h|h|h|h|h|h|h|h|h|h|h|h|h|h|h|h|h|h|h|h <;>
      rw [h] <;> rfl

theorem wsChar_lowerChar (c : Char) : wsChar (lowerChar c) = wsChar c := by
  unfold lowerChar
  split <;> rfl

theorem pyLower_idem (s : PyString) : pyLower (pyLower s) = pyLower s := by
  simp [pyLower, List.map_map, Function.comp_def, lowerChar_idem]

theorem dropWhile_pyLower (s : PyString) :
    (pyLower s).dropWhile wsChar = pyLower (s.dropWhile wsChar) := by
  induction s with
  | nil => rfl
  | cons c t ih =>
      simp only [pyLower, List.map_cons, List.dropWhile_cons, wsChar_lowerChar]
      by_cases h : wsChar c = true
      · simpa [h, pyLower] using ih
      · simp [h]

theorem rdropWhile_pyLower (s : PyString) :
    (pyLower s).rdropWhile wsChar = pyLower (s.rdropWhile wsChar) := by
  have h : (pyLower s).reverse = pyLower s.reverse := by
    simp [pyLower, List.map_reverse]
  simp only [List.rdropWhile, h, dropWhile_pyLower]
  simp [pyLower, List.map_reverse]

theorem pyStrip_pyLower (s : PyString) :
    pyStrip (pyLower s) = pyLower (pyStrip s) := by
  simp [pyStrip, dropWhile_pyLower, rdropWhile_pyLower]

theorem headEq_of_prefix {l m : List α} (h : l <+: m) (hl : l ≠ []) :
    ∀ (h1 : 0 < l.length) (h2 : 0 < m.length), l.get ⟨0, h1⟩ = m.get ⟨0, h2⟩ := by
  obtain ⟨t, rfl⟩ := h
  cases l with
  | nil => exact absurd rfl hl
  | cons a l => intro h1 h2; rfl

theorem pyStrip_idem (s : PyString) : pyStrip (pyStrip s) = pyStrip s := by
  unfold pyStrip
  have h1 : (((s.dropWhile wsChar).rdropWhile wsChar).dropWhile wsChar)
      = (s.dropWhile wsChar).rdropWhile wsChar := by
    rw [List.dropWhile_eq_self_iff]
    intro hl hp
    have hpre : (s.dropWhile wsChar).rdropWhile wsChar <+: s.dropWhile wsChar :=
      List.rdropWhile_prefix _ _
    have hne : (s.dropWhile wsChar).rdropWhile wsChar ≠ [] := by
      intro h; rw [h] at hl; simp at hl
    have hlen : 0 < (s.dropWhile wsChar).length :=
      lt_of_lt_of_le hl hpre.length_le
    have := headEq_of_prefix hpre hne hl hlen
    rw [this] at hp
    exact List.dropWhile_get_zero_not wsChar s hlen hp
  rw [h1, List.rdropWhile_idempotent]

theorem queryKey_lower_strip (q : PyString) :
    queryKey (pyLower (pyStrip q)) = queryKey q := by
  unfold queryKey
  rw [pyLower_idem, pyStrip_pyLower, pyStrip_idem, ← pyStrip_pyLower]

theorem lexDesc_total (s : List ℚ) : ∀ i j, lexDesc s i j ∨ lexDesc s j i := by
  intro i j
  rcases lt_trichotomy (s.getD i 0) (s.getD j 0) with h | h | h
  · exact Or.inr (Or.inl h)
  · rcases Nat.le_total i j with hij | hij
    · exact Or.inl (Or.inr ⟨h, hij⟩)
    · exact Or.inr (Or.inr ⟨h.symm, hij⟩)
  · exact Or.inl (Or.inl h)

theorem lexDesc_trans (s : List ℚ) :
    ∀ i j k, lexDesc s i j → lexDesc s j k → lexDesc s i k := by
  intro i j k hij hjk
  rcases hij with h1 | ⟨h1, h1'⟩ <;> rcases hjk with h2 | ⟨h2, h2'⟩
  · exact Or.inl (h2.trans h1)
  · exact Or.inl (h2 ▸ h1)
  · exact Or.inl (h1 ▸ h2)
  · exact Or.inr ⟨h1.trans h2, h1'.trans h2'⟩

theorem lexAsc_total (s : List ℚ) : ∀ i j, lexAsc s i j ∨ lexAsc s j i := by
  intro i j
  rcases lt_trichotomy (s.getD i 0) (s.getD j 0) with h | h | h
  · exact Or.inl (Or.inl h)
  · rcases Nat.le_total i j with hij | hij
    · exact Or.inl (Or.inr ⟨h, hij⟩)
    · exact Or.inr (Or.inr ⟨h.symm, hij⟩)
  · exact Or.inr (Or.inl h)

theorem lexAsc_trans (s : List ℚ) :
    ∀ i j k, lexAsc s i j → lexAsc s j k → lexAsc s i k := by
  intro i j k hij hjk
  rcases hij with h1 | ⟨h1, h1'⟩ <;> rcases hjk with h2 | ⟨h2, h2'⟩
  · exact Or.inl (h1.trans h2)
  · exact Or.inl (h2 ▸ h1)
  · exact Or.inl (h1 ▸ h2)
  · exact Or.inr ⟨h1.trans h2, h1'.trans h2'⟩

theorem sorted_argsortDesc (s : List ℚ) :
    List.Sorted (lexDesc s) (argsortDesc s) := by
  haveI : IsTotal ℕ (lexDesc s) := ⟨lexDesc_total s⟩
  haveI : IsTrans ℕ (lexDesc s) := ⟨lexDesc_trans s⟩
  exact List.sorted_insertionSort _ _

theorem sorted_argsortAsc (s : List ℚ) :
    List.Sorted (lexAsc s) (argsortAsc s) := by
  haveI : IsTotal ℕ (lexAsc s) := ⟨lexAsc_total s⟩
  haveI : IsTrans ℕ (lexAsc s) := ⟨lexAsc_trans s⟩
  exact List.sorted_insertionSort _ _

theorem argsortDesc_perm (s : List ℚ) :
    List.Perm (argsortDesc s) (List.range s.length) :=
  List.perm_insertionSort _ _

theorem argsortAsc_perm (s : List ℚ) :
    List.Perm (argsortAsc s) (List.range s.length) :=
  List.perm_insertionSort _ _

theorem length_argsortDesc (s : List ℚ) : (argsortDesc s).length = s.length :=
  (argsortDesc_perm s).length_eq.trans (List.length_range _)

theorem length_argsortAsc (s : List ℚ) : (argsortAsc s).length = s.length :=
  (argsortAsc_perm s).length_eq.trans (List.length_range _)

/-! ### Helper lemmas shared by several claims -/

theorem resolveIdx_congr (df : List MovieRow) {q q' : PyString}
    (h : queryKey q = queryKey q') : resolveIdx df q = resolveIdx df q' := by
  unfold resolveIdx
  rw [h]

theorem resolveIdx_lt_length {df : List MovieRow} {title : PyString} {idx : Nat}
    (h : resolveIdx df title = some idx) : idx < df.length := by
  unfold resolveIdx at h
  rw [List.findIdx?_eq_some_iff_getElem] at h
  obtain ⟨hlt, -⟩ := h
  exact hlt

theorem dotp_zero_left {u : List ℚ} (hu : ∀ x ∈ u, x = 0) :
    ∀ v, dotp u v = 0 := by
  induction u with
  | nil => intro v; simp [dotp]
  | cons a u ih =>
      intro v
      cases v with
      | nil => simp [dotp]
      | cons b v =>
          have ha : a = 0 := hu a (List.mem_cons_self a u)
          have ih' := ih (fun x hx => hu x (List.mem_cons_of_mem _ hx)) v
          simp only [dotp, List.zipWith_cons_cons, List.sum_cons] at ih' ⊢
          rw [ha, zero_mul, zero_add, ih']

theorem tokenize_nil (cfg : VectConfig) : tokenize cfg [] = [] := rfl

theorem transform_nil_all_zero (m : TfidfModel) : ∀ x ∈ transform m [], x = 0 := by
  intro x hx
  unfold transform at hx
  rw [List.mem_map] at hx
  obtain ⟨p, hp, rfl⟩ := hx
  rw [tokenize_nil]
  simp

theorem cosSq_zero_left {u : List ℚ} (hu : ∀ x ∈ u, x = 0) (v : List ℚ) :
    cosSq u v = 0 := by
  unfold cosSq
  rw [if_pos (Or.inl (dotp_zero_left hu u))]

theorem cosSq_zero_right {u : List ℚ} (hu : ∀ x ∈ u, x = 0) (v : List ℚ) :
    cosSq v u = 0 := by
  unfold cosSq
  rw [if_pos (Or.inr (dotp_zero_left hu u))]

theorem length_rankedIdxLocal (cosines : List ℚ) (k : Nat) :
    (rankedIdxLocal cosines k).length = min k (cosines.length - 1) := by
  unfold rankedIdxLocal
  rw [List.length_take, List.length_drop, length_argsortDesc]

theorem length_rankedIdxLive (cosines : List ℚ) (k : Nat) :
    (rankedIdxLive cosines k).length = min k cosines.length := by
  unfold rankedIdxLive
  rw [List.length_take, List.length_reverse, length_argsortAsc]

theorem recommend_ok_of_resolve {title : PyString} {df : List MovieRow}
    {idx : Nat} (tfidf : TfidfModel) (matrix : List (List ℚ)) (k : Nat)
    (h : resolveIdx df title = some idx) :
    ∃ l, recommend title df tfidf matrix k = .ok l ∧
      l.length = min k (matrix.length - 1) := by
  unfold recommend
  rw [h]
  refine ⟨_, rfl, ?_⟩
  rw [List.length_map, length_rankedIdxLocal, List.length_map]

theorem matrix_length_build (sw : List Token) (df : List MovieRow) :
    (build_and_save_model sw df).1.2.length = df.length := by
  simp [build_and_save_model, fitTransform]

theorem pairwise_rankedIdxLocal (cosines : List ℚ) (k : Nat) :
    (rankedIdxLocal cosines k).Pairwise (lexDesc cosines) := by
  have hs := sorted_argsortDesc cosines
  unfold rankedIdxLocal
  exact List.Pairwise.sublist
    ((List.take_sublist _ _).trans (List.drop_sublist _ _)) hs

theorem pairwise_rankedIdxLive (cosines : List ℚ) (k : Nat) :
    (rankedIdxLive cosines k).Pairwise (fun i j => lexAsc cosines j i) := by
  have hs := sorted_argsortAsc cosines
  unfold rankedIdxLive
  refine List.Pairwise.sublist (List.take_sublist _ _) ?_
  rw [List.pairwise_reverse]
  exact hs

/-! ### Claims -/

/-- C4: the title resolver is invariant under case changes and
leading/trailing whitespace of the query: `resolve(q)` equals
`resolve(lowercase(trim(q)))` for every query and corpus, and in
particular "Avatar", "avatar" and " Avatar " all resolve to the same
document id. -/
theorem C4_resolver_case_whitespace_invariant :
    (∀ (df : List MovieRow) (q : PyString),
      resolveIdx df q = resolveIdx df (pyLower (pyStrip q))) ∧
    (∀ df : List MovieRow,
      resolveIdx df (pyStr "Avatar") = resolveIdx df (pyStr "avatar") ∧
      resolveIdx df (pyStr " Avatar ") = resolveIdx df (pyStr "avatar")) := by
  refine ⟨fun df q => ?_, fun df => ⟨?_, ?_⟩⟩
  · exact (resolveIdx_congr df (queryKey_lower_strip q)).symm
  · exact resolveIdx_congr df (by decide)
  · exact resolveIdx_congr df (by decide)

/-- C9 as stated is refuted: the stored lookup key is the lower-cased
title without trimming, so a title with leading whitespace stores the
key " avatar", not the claimed lowercase(trim(title)) = "avatar". -/
theorem C9_counterexample :
    (load_data [{ title := some (pyStr " Avatar"),
                  overview := some (pyStr "x") }]).map (fun r => r.title_lower)
      ≠ [pyLower (pyStrip (pyStr " Avatar"))] := by decide

/-- C9 amended: the normaliser maps each row so that a missing
description becomes the empty string, a missing title becomes the empty
string, and the stored lookup key equals lowercase(title) — without
trimming; no rows are dropped and row order is preserved. -/
theorem C9_normalizer_amended :
    ∀ raw : List RawRow,
      (load_data raw).length = raw.length ∧
      ∀ i : Nat, (load_data raw)[i]? =
        (raw[i]?).map (fun r =>
          { title := r.title.getD []
            overview := r.overview.getD []
            title_lower := pyLower (r.title.getD []) }) := by
  intro raw
  refine ⟨by simp [load_data], fun i => ?_⟩
  simp [load_data]

/-- C5 as stated is refuted on the message: with zero matching rows the
code raises a `ValueError` whose message interpolates the lower-cased,
stripped title and ends with an exclamation mark — here
"Movie 'avatar' not found!" instead of the claimed
"Movie 'Avatar' not found". -/
theorem C5_counterexample :
    recommend (pyStr "Avatar")
        [{ title := pyStr "Beta", overview := pyStr "bb",
           title_lower := pyStr "beta" }]
        ⟨⟨[], 20000⟩, [], []⟩ [] 5
      = .error (pyStr "Movie 'avatar' not found!") ∧
    pyStr "Movie 'avatar' not found!" ≠ pyStr "Movie 'Avatar' not found" := by
  decide

/-- C5 amended: `recommend` fails exactly when zero corpus rows match the
normalised query title — with message
"Movie '<lowercased stripped title>' not found!" in `model.py` (the
`app.py` local variant instead says
"Movie '<title>' not found in local dataset.") — and returns a ranked
list, never an error and never a partial result, whenever a row
matches. -/
theorem C5_notfound_amended :
    ∀ (title : PyString) (df : List MovieRow) (m : TfidfModel)
      (matrix : List (List ℚ)) (k : Nat),
      ((∀ r ∈ df, r.title_lower ≠ queryKey title) →
        recommend title df m matrix k = .error (notFoundMsg (queryKey title)) ∧
        recommend_from_local_csv title df m matrix k =
          .error (notFoundMsgApp title)) ∧
      ((∃ r ∈ df, r.title_lower = queryKey title) →
        ∃ l, recommend title df m matrix k = .ok l) := by
  intro title df m matrix k
  constructor
  · intro h
    have hn : resolveIdx df title = none := by
      rw [resolveIdx, List.findIdx?_eq_none_iff]
      intro r hr
      simp [h r hr]
    constructor
    · unfold recommend; rw [hn]
    · unfold recommend_from_local_csv; rw [hn]
  · rintro ⟨r, hr, hkey⟩
    have hsome : ∃ idx, resolveIdx df title = some idx := by
      rw [← Option.isSome_iff_exists, resolveIdx, List.findIdx?_isSome,
        List.any_eq_true]
      exact ⟨r, hr, by simp [hkey]⟩
    obtain ⟨idx, hidx⟩ := hsome
    obtain ⟨l, hl, -⟩ := recommend_ok_of_resolve m matrix k hidx
    exact ⟨l, hl⟩

/-- C5 witness: the amended theorem applied at a concrete corpus with no
matching row. -/
theorem C5_notfound_witness :
    recommend (pyStr "Gamma")
        [{ title := pyStr "Beta", overview := pyStr "bb",
           title_lower := pyStr "beta" }]
        ⟨⟨[], 20000⟩, [], []⟩ [] 5
      = .error (notFoundMsg (queryKey (pyStr "Gamma"))) :=
  ((C5_notfound_amended (pyStr "Gamma")
      [{ title := pyStr "Beta", overview := pyStr "bb",
         title_lower := pyStr "beta" }]
      ⟨⟨[], 20000⟩, [], []⟩ [] 5).1 (by decide)).1

/-- C6: `ensure_model` is idempotent with respect to the persisted cache:
a present cache is returned as-is without building, an absent cache
triggers exactly one build whose two artifacts are persisted, and a
second call on the resulting state returns the same model without
invoking the builder again. -/
theorem C6_ensure_model_idempotent :
    ∀ (sw : List Token) (df : List MovieRow) (d : DiskState),
      (∀ tm, load_model d = some tm → ensure_model sw df d = (tm, d, false)) ∧
      (load_model d = none →
        ensure_model sw df d =
          ((build_and_save_model sw df).1, (build_and_save_model sw df).2,
            true)) ∧
      (ensure_model sw df (ensure_model sw df d).2.1).2.2 = false ∧
      (ensure_model sw df (ensure_model sw df d).2.1).1 =
        (ensure_model sw df d).1 := by
  intro sw df d
  have e2 : load_model (build_and_save_model sw df).2 =
      some (build_and_save_model sw df).1 := rfl
  refine ⟨fun tm htm => ?_, fun hn => ?_, ?_, ?_⟩
  · unfold ensure_model; rw [htm]
  · unfold ensure_model; rw [hn]
  · rcases h : load_model d with - | tm
    · have e1 : ensure_model sw df d =
          ((build_and_save_model sw df).1, (build_and_save_model sw df).2,
            true) := by
        unfold ensure_model; rw [h]
      rw [e1]
      show (ensure_model sw df (build_and_save_model sw df).2).2.2 = false
      unfold ensure_model
      rw [e2]
    · have e1 : ensure_model sw df d = (tm, d, false) := by
        unfold ensure_model; rw [h]
      rw [e1]
      show (ensure_model sw df d).2.2 = false
      unfold ensure_model
      rw [h]
  · rcases h : load_model d with - | tm
    · have e1 : ensure_model sw df d =
          ((build_and_save_model sw df).1, (build_and_save_model sw df).2,
            true) := by
        unfold ensure_model; rw [h]
      rw [e1]
      show (ensure_model sw df (build_and_save_model sw df).2).1 =
        (build_and_save_model sw df).1
      unfold ensure_model
      rw [e2]
    · have e1 : ensure_model sw df d = (tm, d, false) := by
        unfold ensure_model; rw [h]
      rw [e1]
      show (ensure_model sw df d).1 = tm
      unfold ensure_model
      rw [h]

/-- C6 witness: the amended theorem applied to the empty disk state. -/
theorem C6_ensure_model_witness :
    ensure_model [] [] ⟨none, none⟩ =
      ((build_and_save_model [] []).1, (build_and_save_model [] []).2, true) :=
  (C6_ensure_model_idempotent [] [] ⟨none, none⟩).2.1 rfl

/-- On the success path (query summary fetched, at least one usable
candidate) the live recommender reports no error and returns exactly
`min top_n (number of usable candidates)` entries. -/
theorem fast_recommend_success (w : WikiProvider) (sw : List Token)
    (q : PyString) (k maxc : Nat) {src : PyString}
    (hs : w.summary q 4 = some src)
    (ht : candidateTuples w q maxc ≠ []) :
    (fast_recommend_from_wikipedia w sw q k maxc).2 = none ∧
    (fast_recommend_from_wikipedia w sw q k maxc).1.length =
      min k (candidateTuples w q maxc).length := by
  constructor
  · simp only [fast_recommend_from_wikipedia, hs, if_neg ht]
  · simp only [fast_recommend_from_wikipedia, hs, if_neg ht]
    rw [List.length_map, length_rankedIdxLive, List.length_map,
      List.length_tail]
    simp [fitTransform]

/-- Row `idx` of the matrix fitted over `df` is the transform of row
`idx`'s stored description. -/
theorem build_matrix_row (sw : List Token) (df : List MovieRow) {idx : Nat}
    (h : idx < df.length) :
    (build_and_save_model sw df).1.2.getD idx [] =
      transform (build_and_save_model sw df).1.1
        ((df.getD idx default).overview) := by
  simp [build_and_save_model, fitTransform, List.getD_eq_getElem?_getD,
    List.getElem?_map, List.getElem?_eq_getElem, h]

/-- C3: for every corpus, resolvable query and requested count `k`,
`recommend` returns exactly `min k (N - 1)` results where `N` is the
corpus size — asking for more than the available candidates is a
non-error outcome with fewer results — and the live recommender
likewise returns exactly `min k (usable candidates)` results on
success. -/
theorem C3_result_count :
    (∀ (sw : List Token) (title : PyString) (df : List MovieRow) (k idx : Nat),
      resolveIdx df title = some idx →
      ∃ l, recommend title df (build_and_save_model sw df).1.1
            (build_and_save_model sw df).1.2 k = .ok l ∧
          l.length = min k (df.length - 1)) ∧
    (∀ (w : WikiProvider) (sw : List Token) (q : PyString) (k maxc : Nat)
      (out : List RecEntry),
      fast_recommend_from_wikipedia w sw q k maxc = (out, none) →
      out.length = min k (candidateTuples w q maxc).length) := by
  constructor
  · intro sw title df k idx h
    obtain ⟨l, hl, hlen⟩ := recommend_ok_of_resolve _ _ k h
    refine ⟨l, hl, ?_⟩
    rw [hlen, matrix_length_build]
  · intro w sw q k maxc out h
    rcases hs : w.summary q 4 with - | src
    · simp only [fast_recommend_from_wikipedia, hs] at h
      simp at h
    · by_cases ht : candidateTuples w q maxc = []
      · simp only [fast_recommend_from_wikipedia, hs, if_pos ht] at h
        simp at h
      · have hout : (fast_recommend_from_wikipedia w sw q k maxc).1 = out := by
          rw [h]
        rw [← hout]
        exact (fast_recommend_success w sw q k maxc hs ht).2

/-- C3 witness: the local clause applied to a concrete two-row corpus. -/
theorem C3_result_count_witness :
    ∃ l, recommend (pyStr "Beta") dupDf (build_and_save_model [] dupDf).1.1
          (build_and_save_model [] dupDf).1.2 5 = .ok l ∧
        l.length = min 5 (dupDf.length - 1) :=
  C3_result_count.1 [] (pyStr "Beta") dupDf 5 1 (by decide)

/-- C10: re-transforming the query row's stored description with the
fitted vectorizer yields exactly row `idx` of the matrix fitted over the
same corpus, so `recommend` coincides with the spec's row-lookup
formulation on every input — similarity scores included. -/
theorem C10_transform_refines_row_lookup :
    ∀ (sw : List Token) (title : PyString) (df : List MovieRow) (k : Nat),
      recommend title df (build_and_save_model sw df).1.1
          (build_and_save_model sw df).1.2 k =
        recommendByRowLookup title df (build_and_save_model sw df).1.1
          (build_and_save_model sw df).1.2 k := by
  intro sw title df k
  rcases h : resolveIdx df title with - | idx
  · simp only [recommend, recommendByRowLookup, h]
  · have hlt : idx < df.length := resolveIdx_lt_length h
    simp only [recommend, recommendByRowLookup, h, build_matrix_row sw df hlt]

/-- C8: a document with empty description has an all-zero term-weight
vector and similarity exactly 0 to every vector, in both argument
positions — the zero-norm guard makes the value 0 rather than a NaN or
a division-by-zero failure — and ranking a corpus containing such
documents, or querying one, still returns a ranked list. -/
theorem C8_empty_description_safe :
    (∀ (m : TfidfModel) (text : PyString), text = [] →
      (∀ x ∈ transform m text, x = 0) ∧
      (∀ v : List ℚ, cosSq (transform m text) v = 0 ∧
        cosSq v (transform m text) = 0)) ∧
    (∀ (sw : List Token) (title : PyString) (df : List MovieRow) (k idx : Nat),
      resolveIdx df title = some idx →
      ∃ l, recommend title df (build_and_save_model sw df).1.1
            (build_and_save_model sw df).1.2 k = .ok l) := by
  constructor
  · rintro m text rfl
    exact ⟨transform_nil_all_zero m, fun v =>
      ⟨cosSq_zero_left (transform_nil_all_zero m) v,
       cosSq_zero_right (transform_nil_all_zero m) v⟩⟩
  · intro sw title df k idx h
    obtain ⟨l, hl, -⟩ := recommend_ok_of_resolve _ _ k h
    exact ⟨l, hl⟩

/-- C8 witness: the theorem applied to a concrete model and to a corpus
whose queried document has an empty description. -/
theorem C8_empty_description_witness :
    (∀ x ∈ transform dupModel [], x = 0) ∧
    ∃ l, recommend (pyStr "Empty") emptyRowDf
        (build_and_save_model [] emptyRowDf).1.1
        (build_and_save_model [] emptyRowDf).1.2 5 = .ok l :=
  ⟨(C8_empty_description_safe.1 dupModel [] rfl).1,
   C8_empty_description_safe.2 [] (pyStr "Empty") emptyRowDf 5 1 (by decide)⟩

/-- C1 is violated by the code: `recommend` drops the first element of
the score-sorted order (`argsort[1 : top_n+1]`) instead of excluding
the query's row id.  On a corpus where row 0 ties with the query's
perfect self-similarity, querying "Beta" (row 1) returns Beta itself
with score 1 — the spec and the code's own "skip self" comment
(`app.py`, line 103) both require the query's row to be excluded. -/
theorem C1_self_exclusion_failing_input :
    resolveIdx dupDf (pyStr "Beta") = some 1 ∧
    recommend (pyStr "Beta") dupDf dupModel dupMatrix 5 =
      .ok [{ title := pyStr "Beta", overview := pyStr "space adventure film",
             score := 1 }] :=
  ⟨by decide, by with_unfolding_all rfl⟩

/-- C2 as stated is refuted in live mode: two candidates with equal
scores come back in reverse of their original order ("Cand One",
"Cand Two"), because the code reverses an ascending argsort. -/
theorem C2_counterexample :
    (fast_recommend_from_wikipedia tieProvider [] (pyStr "Qm") 5 20).1.map
        (fun r => r.title) = [pyStr "Cand Two", pyStr "Cand One"] ∧
    (fast_recommend_from_wikipedia tieProvider [] (pyStr "Qm") 5 20).1.map
        (fun r => r.score) = [0, 0] :=
  ⟨by with_unfolding_all rfl, by with_unfolding_all rfl⟩

/-- C2 amended: both recommenders return lists sorted by score
non-increasing; ties keep the original row order in `model.py`'s local
mode (descending argsort, modelled stable), but in live mode
equal-score candidates appear in reverse of their original order. -/
theorem C2_sorting_amended :
    (∀ (title : PyString) (df : List MovieRow) (m : TfidfModel)
        (matrix : List (List ℚ)) (k : Nat) (l : List RecEntry),
      recommend title df m matrix k = .ok l →
      l.Pairwise (fun a b => b.score ≤ a.score)) ∧
    (∀ (cosines : List ℚ) (k : Nat),
      (rankedIdxLocal cosines k).Pairwise (fun i j =>
        cosines.getD i 0 = cosines.getD j 0 → i ≤ j)) ∧
    (∀ (w : WikiProvider) (sw : List Token) (q : PyString) (k maxc : Nat)
        (out : List RecEntry),
      fast_recommend_from_wikipedia w sw q k maxc = (out, none) →
      out.Pairwise (fun a b => b.score ≤ a.score)) ∧
    (∀ (cosines : List ℚ) (k : Nat),
      (rankedIdxLive cosines k).Pairwise (fun i j =>
        cosines.getD i 0 = cosines.getD j 0 → j ≤ i)) := by
  refine ⟨?_, ?_, ?_, ?_⟩
  · intro title df m matrix k l hl
    rcases h : resolveIdx df title with - | idx
    · simp [recommend, h] at hl
    · simp only [recommend, h, Except.ok.injEq] at hl
      rw [← hl, List.pairwise_map]
      refine (pairwise_rankedIdxLocal _ k).imp ?_
      intro i j hij
      rcases hij with hlt | ⟨heq, -⟩
      · exact le_of_lt hlt
      · exact le_of_eq heq.symm
  · intro cosines k
    refine (pairwise_rankedIdxLocal cosines k).imp ?_
    intro i j hij
    rcases hij with hlt | ⟨-, hle⟩
    · intro heq
      exact absurd (heq ▸ hlt) (lt_irrefl _)
    · intro _
      exact hle
  · intro w sw q k maxc out h
    rcases hs : w.summary q 4 with - | src
    · simp only [fast_recommend_from_wikipedia, hs] at h
      simp at h
    · by_cases ht : candidateTuples w q maxc = []
      · simp only [fast_recommend_from_wikipedia, hs, if_pos ht] at h
        simp at h
      · simp only [fast_recommend_from_wikipedia, hs, if_neg ht,
          Prod.mk.injEq] at h
        obtain ⟨h1, -⟩ := h
        rw [← h1, List.pairwise_map]
        refine (pairwise_rankedIdxLive _ k).imp ?_
        intro i j hij
        rcases hij with hlt | ⟨heq, -⟩
        · exact le_of_lt hlt
        · exact le_of_eq heq
  · intro cosines k
    refine (pairwise_rankedIdxLive cosines k).imp ?_
    intro i j hij
    rcases hij with hlt | ⟨heq, hle⟩
    · intro heq2
      exact absurd (heq2 ▸ hlt) (lt_irrefl _)
    · intro _
      exact hle

/-- C2 witness: the local sortedness clause applied at a concrete
corpus, query and output list. -/
theorem C2_sorting_witness :
    ([{ title := pyStr "Beta", overview := pyStr "space adventure film",
        score := (1 : ℚ) }] : List RecEntry).Pairwise
      (fun a b => b.score ≤ a.score) :=
  C2_sorting_amended.1 (pyStr "Beta") dupDf dupModel dupMatrix 5 _
    (by with_unfolding_all rfl)

/-- C7: the live recommender fails — an error message together with an
empty list, never an empty success — exactly when the query's own
summary fetch fails or when zero usable candidate summaries remain
after filtering (fetch failures, empty summaries and titles
case-insensitively equal to the query are skipped); on success with
`top_n ≥ 1` the returned list is nonempty. -/
theorem C7_live_failure_iff :
    ∀ (w : WikiProvider) (sw : List Token) (q : PyString) (k maxc : Nat),
      ((fast_recommend_from_wikipedia w sw q k maxc).2 ≠ none ↔
        (w.summary q 4 = none ∨ candidateTuples w q maxc = [])) ∧
      ((fast_recommend_from_wikipedia w sw q k maxc).2 ≠ none →
        (fast_recommend_from_wikipedia w sw q k maxc).1 = []) ∧
      ((fast_recommend_from_wikipedia w sw q k maxc).2 = none → 1 ≤ k →
        (fast_recommend_from_wikipedia w sw q k maxc).1 ≠ []) := by
  intro w sw q k maxc
  rcases hs : w.summary q 4 with - | src
  · have he : fast_recommend_from_wikipedia w sw q k maxc =
        ([], some (pyStr "Wikipedia lookup failed for '" ++ q ++ pyStr "'")) := by
      simp only [fast_recommend_from_wikipedia, hs]
    rw [he]
    exact ⟨⟨fun _ => Or.inl rfl, fun _ => by simp⟩, fun _ => rfl,
      fun hn => absurd hn (by simp)⟩
  · by_cases ht : candidateTuples w q maxc = []
    · have he : fast_recommend_from_wikipedia w sw q k maxc =
          ([], some (pyStr "No candidate summaries found on Wikipedia.")) := by
        simp only [fast_recommend_from_wikipedia, hs, if_pos ht]
      rw [he]
      exact ⟨⟨fun _ => Or.inr ht, fun _ => by simp⟩, fun _ => rfl,
        fun hn => absurd hn (by simp)⟩
    · obtain ⟨hnone, hlen⟩ := fast_recommend_success w sw q k maxc hs ht
      refine ⟨⟨fun hne => absurd hnone hne, ?_⟩,
        fun hne => absurd hnone hne, ?_⟩
      · rintro (h1 | h2)
        · exact absurd h1 (by simp)
        · exact absurd h2 ht
      · intro _ hk
        have hpos : 0 < (fast_recommend_from_wikipedia w sw q k maxc).1.length := by
          rw [hlen]
          exact lt_min hk (List.length_pos.mpr ht)
        exact List.length_pos.mp hpos

/-- C7 witness: the success clause applied to a concrete provider. -/
theorem C7_live_failure_witness :
    (fast_recommend_from_wikipedia tieProvider [] (pyStr "Qm") 5 20).1 ≠ [] :=
  (C7_live_failure_iff tieProvider [] (pyStr "Qm") 5 20).2.2
    (by with_unfolding_all rfl) (by decide)
